import Mathlib

/-
Verification development for the TennisSage analysis-orchestration pipeline.
Each definition is a shallow embedding of one function of the source tree
(`server/services/agentOrchestrator.ts`, `server/agents/*.ts`,
`server/storage.ts`).  JavaScript numbers are modelled as rationals with the
exact decimal constants of the source; JavaScript falsiness of strings and
numbers is modelled explicitly where the source relies on it.  Wall-clock
fields (`lastActivity`, `processingTime`) and the opaque `analysis` payloads
are not carried, except where a claim depends on them.
-/

/- ===== Arithmetic primitives of the source (Math.max, Math.min, Math.abs) ===== -/

/-- Model of `Math.max` on two (non-NaN) numbers. -/
def jsMax (a b : ℚ) : ℚ := if a < b then b else a

/-- Model of `Math.min` on two (non-NaN) numbers. -/
def jsMin (a b : ℚ) : ℚ := if b < a then b else a

/-- Model of `Math.abs` on a (non-NaN) number. -/
def jsAbs (a : ℚ) : ℚ := if a < 0 then -a else a

/- ===== ASCII case folding and substring search (JS string/regex model) ===== -/

/-- ASCII lower-casing of one character, as performed by the case-insensitive
flag of the advantage regex in the agent classes (the regex only contains
ASCII letters, so ASCII folding is the exact semantics). -/
def asciiLower (c : Char) : Char :=
  if 65 ≤ c.toNat ∧ c.toNat ≤ 90 then Char.ofNat (c.toNat + 32) else c

/-- Lower-case a character list. -/
def lowerList (s : List Char) : List Char := s.map asciiLower

/-- The character class `\d` of the JavaScript regex: the ASCII digits 0-9. -/
def jsDigit (c : Char) : Bool := 48 ≤ c.toNat && c.toNat ≤ 57

/-- The ASCII digit character for n. -/
def digitChar (n : ℕ) : Char := Char.ofNat (48 + n)

/-- Case-sensitive substring test, the model of `String.prototype.includes`. -/
def containsSub (needle hay : List Char) : Bool :=
  (List.range (hay.length + 1)).any (fun i => needle.isPrefixOf (hay.drop i))

/- ===== The advantage-marker regex of the agent classes ===== -/

/-- Lower-cased text of the first regex alternative up to its digit group:
the literal part of the pattern for a full advantage. -/
def advPat : List Char := "**advantage player ".data

/-- Lower-cased literal part of the slight-advantage alternative. -/
def slightAdvPat : List Char := "**slight advantage player ".data

/-- Lower-cased text of the no-clear-advantage alternative. -/
def noClearPat : List Char := "**no clear advantage**".data

/-- Try the pattern `pat` + one digit + two asterisks at the head of s,
case-insensitively; on success return the digit and the original-case
matched text (the model of one tagged regex alternative tried at one
position). -/
def matchTagAt (pat : List Char) (s : List Char) : Option (Char × List Char) :=
  if lowerList (s.take pat.length) = pat then
    match s.drop pat.length with
    | d :: c1 :: c2 :: _ =>
      if jsDigit d && (c1 == '*') && (c2 == '*') then
        some (d, s.take (pat.length + 3))
      else none
    | _ => none
  else none

/-- Try a literal pattern at the head of s, case-insensitively; on success
return the original-case matched text. -/
def matchLitAt (pat : List Char) (s : List Char) : Option (List Char) :=
  if lowerList (s.take pat.length) = pat then some (s.take pat.length) else none

/-- Outcome of one regex alternative: a digit-tagged advantage marker
(group 1 or group 2 of the regex holds the digit), or the literal
no-clear-advantage marker. In both cases the original matched substring is
kept, since the source inspects `advantageMatch[0]` with the case-sensitive
`includes`. -/
inductive AdvMatch where
  | tagged (d : Char) (text : List Char) : AdvMatch
  | lit (text : List Char) : AdvMatch
deriving DecidableEq, Repr

/-- The matched substring `advantageMatch[0]`. -/
def AdvMatch.text : AdvMatch → List Char
  | AdvMatch.tagged _ t => t
  | AdvMatch.lit t => t

/-- Try the three alternatives of the statistical/physical/matchup advantage
regex at one position, in the alternation order of the source pattern. -/
def matchAdvAt (s : List Char) : Option AdvMatch :=
  match matchTagAt advPat s with
  | some (d, t) => some (AdvMatch.tagged d t)
  | none =>
    match matchTagAt slightAdvPat s with
    | some (d, t) => some (AdvMatch.tagged d t)
    | none => (matchLitAt noClearPat s).map AdvMatch.lit

/-- Leftmost match of a position matcher over a string, the semantics of
`String.prototype.match` with a non-global regex. -/
def firstMatchBy (f : List Char → Option AdvMatch) : List Char → Option AdvMatch
  | [] => none
  | c :: rest =>
    match f (c :: rest) with
    | some m => some m
    | none => firstMatchBy f rest

/-- Leftmost match of the three-alternative advantage regex. -/
def firstAdvMatch (s : List Char) : Option AdvMatch := firstMatchBy matchAdvAt s

/-- Result of `extractAdvantage`: the categorical advantage tag and the
conclusion text. -/
structure AdvantageTag where
  player : String
  conclusion : String
deriving DecidableEq, Repr

/-- Model of `StatisticalAgents.extractAdvantage` (identical in PhysicalConditionAgents
and MatchupAgents): regex-match the completion reply for the advantage
markers, then branch on the case-sensitive `includes` checks of the source.
When the literal alternative matched but `advantageMatch[0]` does not contain
the exact text No Clear, the source reads the undefined capture groups and
produces the string playerundefined. -/
def extractAdvantage (analysis : String) : AdvantageTag :=
  match firstAdvMatch analysis.data with
  | none => { player := "none", conclusion := "No Clear Advantage" }
  | some m =>
    if containsSub ("No Clear".data) m.text then
      { player := "none", conclusion := "No Clear Advantage" }
    else
      let playerNum :=
        match m with
        | AdvMatch.tagged d _ => String.mk [d]
        | AdvMatch.lit _ => "undefined"
      let slight := containsSub ("Slight".data) m.text
      { player := "player" ++ playerNum,
        conclusion := (if slight then "Slight " else "") ++ "Advantage Player " ++ playerNum }

/-- Model of `SurfaceEnvironmentAgents.extractAdvantage`: same shape but its regex has
no slight-advantage alternative and the conclusion has no slight prefix. -/
def extractAdvantageSurface (analysis : String) : AdvantageTag :=
  match firstMatchBy (fun s =>
      match matchTagAt advPat s with
      | some (d, t) => some (AdvMatch.tagged d t)
      | none => (matchLitAt noClearPat s).map AdvMatch.lit) analysis.data with
  | none => { player := "none", conclusion := "No Clear Advantage" }
  | some m =>
    if containsSub ("No Clear".data) m.text then
      { player := "none", conclusion := "No Clear Advantage" }
    else
      let playerNum :=
        match m with
        | AdvMatch.tagged d _ => String.mk [d]
        | AdvMatch.lit _ => "undefined"
      { player := "player" ++ playerNum, conclusion := "Advantage Player " ++ playerNum }

/- ===== Factor records and the fallback synthesizer ===== -/

/-- The `FactorAnalysis` record compiled by `synthesizePrediction`.  The
advantage field is a string at run time (the tasks can produce values such as
player7 outside the declared union type). -/
structure FactorAnalysis where
  factor : String
  conclusion : String
  advantage : String
  confidence : ℚ
  reasoning : String
deriving DecidableEq, Repr

/-- The first filter predicate of the fallback branch of
`synthesizePrediction`. -/
def isPlayer1Advantage (fa : FactorAnalysis) : Bool :=
  fa.advantage == "player1" || fa.advantage == "slight_player1"

/-- The second filter predicate of the fallback branch. -/
def isPlayer2Advantage (fa : FactorAnalysis) : Bool :=
  fa.advantage == "player2" || fa.advantage == "slight_player2"

/-- Model of `player1Advantages` of the fallback branch. -/
def player1Advantages (fas : List FactorAnalysis) : ℕ :=
  (fas.filter isPlayer1Advantage).length

/-- Model of `player2Advantages` of the fallback branch. -/
def player2Advantages (fas : List FactorAnalysis) : ℕ :=
  (fas.filter isPlayer2Advantage).length

/-- The triple computed by the fallback branch of `synthesizePrediction`. -/
structure FallbackPrediction where
  predictedWinnerId : String
  winProbability : ℚ
  confidenceLevel : ℚ
deriving DecidableEq, Repr

/-- The deterministic fallback branch of `synthesizePrediction`
(agentOrchestrator.ts, catch block): majority vote over the advantage tags,
probability max(0.5, min(0.9, 0.5 + |diff| * 0.05)), confidence 0.75. -/
def fallbackPrediction (player1Id player2Id : String)
    (factorAnalyses : List FactorAnalysis) : FallbackPrediction :=
  let p1 := player1Advantages factorAnalyses
  let p2 := player2Advantages factorAnalyses
  { predictedWinnerId := if p1 > p2 then player1Id else player2Id,
    winProbability := jsMax (1/2) (jsMin (9/10) (1/2 + jsAbs ((p1 : ℚ) - (p2 : ℚ)) * (1/20))),
    confidenceLevel := 3/4 }

/- ===== Compilation of raw task outputs into FactorAnalysis records ===== -/

/-- A raw task-output row as seen by `synthesizePrediction` (the source
iterates over untyped values, so every field may be absent). -/
structure RawAgentRecord where
  factor : Option String
  conclusion : Option String
  advantage : Option String
  confidence : Option ℚ
  reasoning : Option String
deriving DecidableEq, Repr

/-- JS truthiness of a possibly-absent string: absent and empty are falsy. -/
def strTruthy : Option String → Bool
  | none => false
  | some s => !(s == "")

/-- The JS expression `v || dflt` for a possibly-absent string field. -/
def jsOrStr (v : Option String) (dflt : String) : String :=
  match v with
  | none => dflt
  | some s => if s == "" then dflt else s

/-- The JS expression `v || dflt` for a possibly-absent number field:
absent and zero are falsy (NaN not modelled). -/
def jsOrNum (v : Option ℚ) (dflt : ℚ) : ℚ :=
  match v with
  | none => dflt
  | some q => if q == 0 then dflt else q

/-- One iteration of the compile loop of `synthesizePrediction`: skip null
rows and rows with a falsy conclusion; default the other fields. -/
def compileOne (category : String) (row : Option RawAgentRecord) : Option FactorAnalysis :=
  match row with
  | none => none
  | some r =>
    if strTruthy r.conclusion then
      some { factor := jsOrStr r.factor category,
             conclusion := jsOrStr r.conclusion "",
             advantage := jsOrStr r.advantage "none",
             confidence := jsOrNum r.confidence (1/2),
             reasoning := jsOrStr r.reasoning "" }
    else none

/-- The full compile loop of `synthesizePrediction` over the category
groups of `analysisResults` (every group value is an array). -/
def compileFactorAnalyses (groups : List (String × List (Option RawAgentRecord))) :
    List FactorAnalysis :=
  (groups.map (fun g => g.2.filterMap (compileOne g.1))).flatten

/- ===== Analysis task functions ===== -/

/-- The result record shared by the task interfaces StatisticalResult,
SurfaceEnvironmentResult, PhysicalConditionResult and ContextualResult
(`analysis` payload and `processingTime` omitted). -/
structure AgentRecord where
  agentName : String
  factor : String
  conclusion : String
  advantage : String
  confidence : ℚ
  reasoning : String
deriving DecidableEq, Repr

/-- View of a task result as a raw row of the compile loop (a JS object with
all fields present). -/
def AgentRecord.toRaw (r : AgentRecord) : RawAgentRecord :=
  { factor := some r.factor, conclusion := some r.conclusion,
    advantage := some r.advantage, confidence := some r.confidence,
    reasoning := some r.reasoning }

/-- The serving statistics consumed by `calculateServeConfidence` (the
remaining fields of the stats object only feed the prompt payload). -/
structure ServeStats where
  firstServeWinRate : ℚ
  serviceGamesHeld : ℚ
  aceRate : ℚ
deriving DecidableEq, Repr

/-- Model of `StatisticalAgents.calculateServeConfidence`: one point per metric whose
gap exceeds 0.1, scaled to min(0.9, 0.5 + advantages * 0.15). -/
def calculateServeConfidence (stats1 stats2 : ServeStats) : ℚ :=
  let advantages : ℚ :=
    (if jsAbs (stats1.firstServeWinRate - stats2.firstServeWinRate) > 1/10 then 1 else 0)
    + (if jsAbs (stats1.serviceGamesHeld - stats2.serviceGamesHeld) > 1/10 then 1 else 0)
    + (if jsAbs (stats1.aceRate - stats2.aceRate) > 1/10 then 1 else 0)
  jsMin (9/10) (1/2 + advantages * (3/20))

/-- Model of `StatisticalAgents.analyzeServePerformance`.  The completion-client call
(and any failure inside the try block) is modelled by the Except argument;
the catch branch is the error case. -/
def analyzeServePerformance (stats1 stats2 : ServeStats)
    (ai : Except String String) : AgentRecord :=
  match ai with
  | Except.ok reply =>
    let adv := extractAdvantage reply
    { agentName := "Service Performance Analyst",
      factor := "Factor 3.1 (Serve Performance)",
      conclusion := adv.conclusion, advantage := adv.player,
      confidence := calculateServeConfidence stats1 stats2, reasoning := reply }
  | Except.error _ =>
    { agentName := "Service Performance Analyst",
      factor := "Factor 3.1 (Serve Performance)",
      conclusion := "Analysis Error", advantage := "none", confidence := 0,
      reasoning := "Unable to analyze serve performance due to data limitations." }

/-- Weather fields consumed by `calculateEnvironmentConfidence`. -/
structure Weather where
  forecastReliability : ℚ
  temperature : ℚ
  windSpeed : ℚ
deriving DecidableEq, Repr

/-- Model of `SurfaceEnvironmentAgents.calculateEnvironmentConfidence` (the two
player-stat parameters are unused in the source and omitted here): base is
`forecastReliability || 0.5`, scaled by 1.2 in extreme temperature and by
1.1 in strong wind, clamped to [0.3, 0.9]. -/
def calculateEnvironmentConfidence (weather : Weather) : ℚ :=
  let base := if weather.forecastReliability == 0 then 1/2 else weather.forecastReliability
  let c1 := if weather.temperature > 35 ∨ weather.temperature < 10 then base * (6/5) else base
  let c2 := if weather.windSpeed > 20 then c1 * (11/10) else c1
  jsMin (9/10) (jsMax (3/10) c2)

/-- Model of `SurfaceEnvironmentAgents.analyzeEnvironment`; its catch branch returns
confidence 0.5, not 0.0. -/
def analyzeEnvironment (weather : Weather) (ai : Except String String) : AgentRecord :=
  match ai with
  | Except.ok reply =>
    let adv := extractAdvantageSurface reply
    { agentName := "Environment Analyst",
      factor := "Factor 2.2 (Conditions & Acclimatization)",
      conclusion := adv.conclusion, advantage := adv.player,
      confidence := calculateEnvironmentConfidence weather, reasoning := reply }
  | Except.error _ =>
    { agentName := "Environment Analyst",
      factor := "Factor 2.2 (Conditions & Acclimatization)",
      conclusion := "No Clear Advantage", advantage := "none", confidence := 1/2,
      reasoning := "Environmental conditions appear neutral for both players." }

/-- Fitness-status fields consumed by `calculateFitnessConfidence`. -/
structure FitnessStatus where
  recentInjuries : List String
  medicalTimeouts : ℕ
deriving DecidableEq, Repr

/-- Model of `PhysicalConditionAgents.calculateFitnessConfidence`. -/
def calculateFitnessConfidence (status1 status2 : FitnessStatus) : ℚ :=
  if status1.recentInjuries.length > 0 ∨ status2.recentInjuries.length > 0 then 9/10
  else if status1.medicalTimeouts > 0 ∨ status2.medicalTimeouts > 0 then 3/4
  else 1/2

/-- Model of `PhysicalConditionAgents.analyzeInjuryFitnessStatus`; its catch branch
returns confidence 0.5, not 0.0. -/
def analyzeInjuryFitnessStatus (status1 status2 : FitnessStatus)
    (ai : Except String String) : AgentRecord :=
  match ai with
  | Except.ok reply =>
    let adv := extractAdvantage reply
    { agentName := "Injury & Fitness Status Monitor",
      factor := "Factor 4.3 (Injury & Fitness)",
      conclusion := adv.conclusion, advantage := adv.player,
      confidence := calculateFitnessConfidence status1 status2, reasoning := reply }
  | Except.error _ =>
    { agentName := "Injury & Fitness Status Monitor",
      factor := "Factor 4.3 (Injury & Fitness)",
      conclusion := "No Known Issues", advantage := "none", confidence := 1/2,
      reasoning := "No confirmed injury or fitness concerns for either player." }

/- ===== Match-up agents ===== -/

/-- One head-to-head match row as consumed by `calculateH2HStats`. -/
structure H2HMatch where
  player1Id : String
  player2Id : String
  winner : String
  surface : String
deriving DecidableEq, Repr

/-- The aggregate produced by `MatchupAgents.calculateH2HStats`. -/
structure H2HStats where
  player1Wins : ℕ
  player2Wins : ℕ
  totalMatches : ℕ
  player1WinRate : ℚ
  lastWinner : Option String
deriving DecidableEq, Repr

/-- Model of `MatchupAgents.calculateH2HStats`. -/
def calculateH2HStats (ms : List H2HMatch) (player1Id player2Id : String) : H2HStats :=
  let player1Wins := (ms.filter (fun m =>
      (m.player1Id == player1Id && m.winner == "player1") ||
      (m.player2Id == player1Id && m.winner == "player2"))).length
  { player1Wins := player1Wins,
    player2Wins := ms.length - player1Wins,
    totalMatches := ms.length,
    player1WinRate := if ms.length > 0 then (player1Wins : ℚ) / (ms.length : ℚ) else 0,
    lastWinner :=
      match ms with
      | [] => none
      | m0 :: _ => some (if m0.winner == "player1"
          then (if m0.player1Id == player1Id then "player1" else "player2")
          else (if m0.player2Id == player1Id then "player1" else "player2")) }

/-- Model of `MatchupAgents.calculateH2HConfidence` (the surface-stats parameter is
unused by the source body). -/
def calculateH2HConfidence (overall surfaceStats : H2HStats) : ℚ :=
  if overall.totalMatches = 0 then 0
  else
    let winRateDiff := jsAbs (overall.player1WinRate - 1/2) * 2
    let sampleConfidence := jsMin 1 ((overall.totalMatches : ℚ) / 10)
    winRateDiff * sampleConfidence * (4/5) + 1/5

/-- The playing-style field consumed by `calculateStyleConfidence`. -/
structure StyleProfile where
  aggressionIndex : ℚ
deriving DecidableEq, Repr

/-- Model of `MatchupAgents.calculateStyleConfidence`. -/
def calculateStyleConfidence (style1 style2 : StyleProfile) : ℚ :=
  jsMin (9/10) (1/2 + jsAbs (style1.aggressionIndex - style2.aggressionIndex) * (1/2))

/-- Model of `MatchupAgents.calculateTacticalConfidence`: a constant (its parameters
are unused by the source body). -/
def calculateTacticalConfidence : ℚ := 7/10

/-- A MatchupResult record.  The last two components model the
`styleContext` and `h2hContext` fields that `analyzeTacticalBattle` places
into its analysis payload, which hold the values of its `styleAnalysis` and
`h2hAnalysis` parameters (absent, i.e. none, in the payloads of the other
two tasks and in the tactical catch branch). -/
inductive MatchupResult : Type where
  | mk (agentName : String) (factor : String) (conclusion : String) (advantage : String)
      (confidence : ℚ) (reasoning : String)
      (styleContext : Option MatchupResult) (h2hContext : Option MatchupResult) : MatchupResult

/-- Agent name of a MatchupResult. -/
def MatchupResult.agentName : MatchupResult → String
  | MatchupResult.mk a _ _ _ _ _ _ _ => a

/-- Conclusion of a MatchupResult. -/
def MatchupResult.conclusion : MatchupResult → String
  | MatchupResult.mk _ _ c _ _ _ _ _ => c

/-- Advantage tag of a MatchupResult. -/
def MatchupResult.advantage : MatchupResult → String
  | MatchupResult.mk _ _ _ a _ _ _ _ => a

/-- Confidence of a MatchupResult. -/
def MatchupResult.confidence : MatchupResult → ℚ
  | MatchupResult.mk _ _ _ _ c _ _ _ => c

/-- The styleContext component of the analysis payload. -/
def MatchupResult.styleContext : MatchupResult → Option MatchupResult
  | MatchupResult.mk _ _ _ _ _ _ sc _ => sc

/-- The h2hContext component of the analysis payload. -/
def MatchupResult.h2hContext : MatchupResult → Option MatchupResult
  | MatchupResult.mk _ _ _ _ _ _ _ hc => hc

/-- Model of `MatchupAgents.analyzePlayingStyles`. -/
def analyzePlayingStyles (style1 style2 : StyleProfile)
    (ai : Except String String) : MatchupResult :=
  match ai with
  | Except.ok reply =>
    let adv := extractAdvantage reply
    MatchupResult.mk "Playing Style Profiler" "Factor 5.1 (Style Matchup)"
      adv.conclusion adv.player (calculateStyleConfidence style1 style2) reply none none
  | Except.error _ =>
    MatchupResult.mk "Playing Style Profiler" "Factor 5.1 (Style Matchup)"
      "Analysis Error" "none" 0
      "Unable to analyze playing styles due to data limitations." none none

/-- Model of `MatchupAgents.analyzeHeadToHead`. -/
def analyzeHeadToHead (matchSurface player1Id player2Id : String)
    (h2hMatches : List H2HMatch) (ai : Except String String) : MatchupResult :=
  match ai with
  | Except.ok reply =>
    let h2hStats := calculateH2HStats h2hMatches player1Id player2Id
    let surfaceStats := calculateH2HStats
      (h2hMatches.filter (fun m => m.surface == matchSurface)) player1Id player2Id
    let adv := extractAdvantage reply
    MatchupResult.mk "Head-to-Head Analyst" "Factor 5.2 (Head-to-Head)"
      adv.conclusion adv.player (calculateH2HConfidence h2hStats surfaceStats) reply none none
  | Except.error _ =>
    MatchupResult.mk "Head-to-Head Analyst" "Factor 5.2 (Head-to-Head)"
      "No Previous Meetings" "none" 0
      "These players have never met before, so head-to-head analysis is based on style matchup only."
      none none

/-- Model of `MatchupAgents.analyzeTacticalBattle`.  The source declares the
parameters `styleAnalysis` and `h2hAnalysis` after the match and players and
stores them in the analysis payload as `styleContext` and `h2hContext`. -/
def analyzeTacticalBattle (styleAnalysis h2hAnalysis : Option MatchupResult)
    (ai : Except String String) : MatchupResult :=
  match ai with
  | Except.ok reply =>
    let adv := extractAdvantage reply
    MatchupResult.mk "Tactical Battle Synthesizer" "Factor 5.3 (Projected Tactical Battle)"
      adv.conclusion adv.player calculateTacticalConfidence reply styleAnalysis h2hAnalysis
  | Except.error _ =>
    MatchupResult.mk "Tactical Battle Synthesizer" "Factor 5.3 (Projected Tactical Battle)"
      "Analysis Error" "none" 0
      "Unable to synthesize tactical battle due to data limitations." none none

/-- One event of the execution trace of a task group: the moment a task is
handed to `runAgentAnalysis` and the moment its awaited promise settles. -/
inductive TraceEvent where
  | started (agentName : String) : TraceEvent
  | finished (agentName : String) : TraceEvent
deriving DecidableEq, Repr

/-- Group 5 of `runAgentAnalyses` (the match-up group): the source awaits
the three tasks one after another inside an array literal, and invokes
`matchupAgents.analyzeTacticalBattle(match, player1, player2)` with only
three arguments, so the `styleAnalysis` and `h2hAnalysis` parameters of the
tactical task are undefined (none); the earlier two results are not passed
on.  Returns the result list together with the execution trace. -/
def runMatchupGroup (style1 style2 : StyleProfile)
    (matchSurface player1Id player2Id : String) (h2hMatches : List H2HMatch)
    (aiStyle aiH2H aiTactical : Except String String) :
    List MatchupResult × List TraceEvent :=
  let r1 := analyzePlayingStyles style1 style2 aiStyle
  let r2 := analyzeHeadToHead matchSurface player1Id player2Id h2hMatches aiH2H
  let r3 := analyzeTacticalBattle none none aiTactical
  ([r1, r2, r3],
   [TraceEvent.started "Playing Style Profiler", TraceEvent.finished "Playing Style Profiler",
    TraceEvent.started "Head-to-Head Analyst", TraceEvent.finished "Head-to-Head Analyst",
    TraceEvent.started "Tactical Battle Synthesizer",
    TraceEvent.finished "Tactical Battle Synthesizer"])

/- ===== The per-match in-flight guard of analyzeMatch ===== -/

/-- The entry check-and-set of `AgentOrchestrator.analyzeMatch`: the state is
the set of match ids currently marked in `currentAnalysis` (every stored
value is `true`); a second call for a marked id throws synchronously, before
any suspension point, and otherwise the id is marked.  The state also lists
the accepted in-flight runs, one list entry per run. -/
def startAnalysis (inFlight : List String) (matchId : String) :
    Except String (List String) :=
  if matchId ∈ inFlight then Except.error "Match analysis already in progress"
  else Except.ok (matchId :: inFlight)

/-- The `finally` block of `analyzeMatch`: `currentAnalysis.delete(matchId)`
(a no-op when the id is not marked). -/
def finishAnalysis (inFlight : List String) (matchId : String) : List String :=
  inFlight.erase matchId

/-- An externally observable event of the orchestrator: a call to
`analyzeMatch` for a match id (accepted or rejected), or a run for a match
id settling (its finally block running). -/
inductive OrchEvent where
  | start (matchId : String) : OrchEvent
  | finish (matchId : String) : OrchEvent
deriving DecidableEq, Repr

/-- Effect of one event on the in-flight state: a rejected start leaves the
state unchanged (the guard throws before the marker is set). -/
def orchStep (inFlight : List String) : OrchEvent → List String
  | OrchEvent.start id =>
    match startAnalysis inFlight id with
    | Except.ok s2 => s2
    | Except.error _ => inFlight
  | OrchEvent.finish id => finishAnalysis inFlight id

/-- The in-flight state after a sequence of events from process start
(empty map). -/
def orchRun (events : List OrchEvent) : List String :=
  events.foldl orchStep []

/- ===== The AgentStatus registry ===== -/

/-- The status values of an AgentStatus entry. -/
inductive AgentState where
  | idle : AgentState
  | processing : AgentState
  | active : AgentState
  | error : AgentState
deriving DecidableEq, Repr

/-- One registry entry (the `lastActivity` timestamp and the random initial
`accuracy` are not carried). -/
structure AgentEntry where
  name : String
  agentType : String
  status : AgentState
  totalAnalyses : ℕ
deriving DecidableEq, Repr

/-- Model of `AgentOrchestrator.updateAgentStatus` on an existing entry: overwrite
the status and count one more analysis when moving to processing. -/
def updateAgentStatus (e : AgentEntry) (s : AgentState) : AgentEntry :=
  { e with status := s,
           totalAnalyses := if s = AgentState.processing
             then e.totalAnalyses + 1 else e.totalAnalyses }

/-- The status updates a task's entry can receive: `runAgentAnalysis` sets
processing when the task starts, active when its promise fulfils, error when
it rejects; no other status value is ever written after initialization. -/
inductive TaskEvent where
  | started : TaskEvent
  | succeeded : TaskEvent
  | failed : TaskEvent
deriving DecidableEq, Repr

/-- The status write performed by `runAgentAnalysis` for one task event. -/
def statusAfter (e : AgentEntry) : TaskEvent → AgentEntry
  | TaskEvent.started => updateAgentStatus e AgentState.processing
  | TaskEvent.succeeded => updateAgentStatus e AgentState.active
  | TaskEvent.failed => updateAgentStatus e AgentState.error

/-- An entry after a sequence of task events. -/
def statusTrace (e : AgentEntry) (events : List TaskEvent) : AgentEntry :=
  events.foldl statusAfter e

/- ===== The predictions table of the storage accessor ===== -/

/-- The insert payload of `DatabaseStorage.createPrediction`
(`agentContributions` and `createdAt` omitted). -/
structure InsertPrediction where
  matchId : String
  predictedWinnerId : String
  winProbability : ℚ
  confidenceLevel : ℚ
  factorAnalysis : List FactorAnalysis
  reasoning : String
deriving DecidableEq, Repr

/-- A persisted predictions row: the insert payload plus the generated
primary key. -/
structure PredictionRow where
  id : ℕ
  matchId : String
  predictedWinnerId : String
  winProbability : ℚ
  confidenceLevel : ℚ
  factorAnalysis : List FactorAnalysis
  reasoning : String
deriving DecidableEq, Repr

/-- The predictions table with its id generator. -/
structure PredictionsTable where
  rows : List PredictionRow
  nextId : ℕ
deriving DecidableEq, Repr

/-- Model of `DatabaseStorage.createPrediction`.  Modelled from the spec: the
underlying database engine is outside the repository; per the spec's
ORM-backed relational store, `insert ... values(p).returning()` appends one
row with a fresh generated id and returns it. -/
def createPrediction (t : PredictionsTable) (p : InsertPrediction) :
    PredictionRow × PredictionsTable :=
  let row : PredictionRow :=
    { id := t.nextId, matchId := p.matchId,
      predictedWinnerId := p.predictedWinnerId,
      winProbability := p.winProbability,
      confidenceLevel := p.confidenceLevel,
      factorAnalysis := p.factorAnalysis,
      reasoning := p.reasoning }
  (row, { rows := t.rows ++ [row], nextId := t.nextId + 1 })

/-- Model of `DatabaseStorage.getPredictionByMatch`.  Modelled from the spec: `select
... where matchId = ...` yields the matching rows and the source
destructures the first one (or undefined). -/
def getPredictionByMatch (t : PredictionsTable) (matchId : String) :
    Option PredictionRow :=
  (t.rows.filter (fun r => r.matchId == matchId)).head?

/- ===== Marker notions for the advantage extractor ===== -/

/-- The character list of the full-advantage marker for digit n. -/
def advMarkerL (n : ℕ) : List Char :=
  "**Advantage Player ".data ++ ([digitChar n] ++ "**".data)

/-- The character list of the slight-advantage marker for digit n. -/
def slightMarkerL (n : ℕ) : List Char :=
  "**Slight Advantage Player ".data ++ ([digitChar n] ++ "**".data)

/-- The character list of the no-clear-advantage marker. -/
def noClearMarkerL : List Char := "**No Clear Advantage**".data

/-- The full-advantage marker string for digit n. -/
def advantageMarker (n : ℕ) : String := String.mk (advMarkerL n)

/-- The slight-advantage marker string for digit n. -/
def slightMarker (n : ℕ) : String := String.mk (slightMarkerL n)

/-- The no-clear-advantage marker string. -/
def noClearMarker : String := String.mk noClearMarkerL

/-- Whether a reply contains, case-insensitively, any of the three advantage
markers of the regex (for some digit): the containment notion of the claim,
stated independently of the positional matcher. -/
def hasAnyMarkerCI (s : String) : Bool :=
  ((List.range 10).any (fun n =>
      containsSub (advPat ++ ([digitChar n] ++ ['*', '*'])) (lowerList s.data) ||
      containsSub (slightAdvPat ++ ([digitChar n] ++ ['*', '*'])) (lowerList s.data))) ||
    containsSub noClearPat (lowerList s.data)

/- ===== Theorems ===== -/

/-- Claim C1: the fallback synthesizer is a deterministic function of the
factor-record list; it counts the records favoring each player, picks the
majority as predicted winner, computes win probability
max(0.5, min(0.9, 0.5 + 0.05 * |count1 - count2|)) and fixes confidence at
0.75; on the records [player1, player1, player2] it picks player1 with
probability 0.55. -/
theorem fallback_synthesizer_majority_vote (player1Id player2Id : String)
    (fas : List FactorAnalysis) :
    (player2Advantages fas < player1Advantages fas →
        (fallbackPrediction player1Id player2Id fas).predictedWinnerId = player1Id) ∧
    (player1Advantages fas < player2Advantages fas →
        (fallbackPrediction player1Id player2Id fas).predictedWinnerId = player2Id) ∧
    (fallbackPrediction player1Id player2Id fas).winProbability =
      jsMax (1/2) (jsMin (9/10)
        (1/2 + jsAbs ((player1Advantages fas : ℚ) - (player2Advantages fas : ℚ)) * (1/20))) ∧
    (fallbackPrediction player1Id player2Id fas).confidenceLevel = 3/4 ∧
    fallbackPrediction "P1" "P2"
      [⟨"f1", "c", "player1", 1, ""⟩, ⟨"f2", "c", "player1", 1, ""⟩,
       ⟨"f3", "c", "player2", 1, ""⟩] =
      { predictedWinnerId := "P1", winProbability := 11/20, confidenceLevel := 3/4 } := by
  refine ⟨fun h => ?_, fun h => ?_, rfl, rfl, ?_⟩
  · show (if player2Advantages fas < player1Advantages fas
        then player1Id else player2Id) = player1Id
    exact if_pos h
  · show (if player2Advantages fas < player1Advantages fas
        then player1Id else player2Id) = player2Id
    exact if_neg (by omega)
  · have h1 : player1Advantages
        [⟨"f1", "c", "player1", 1, ""⟩, ⟨"f2", "c", "player1", 1, ""⟩,
         ⟨"f3", "c", "player2", 1, ""⟩] = 2 := by decide
    have h2 : player2Advantages
        [⟨"f1", "c", "player1", 1, ""⟩, ⟨"f2", "c", "player1", 1, ""⟩,
         ⟨"f3", "c", "player2", 1, ""⟩] = 1 := by decide
    norm_num [fallbackPrediction, h1, h2, jsMax, jsMin, jsAbs]

/-- Witness for C1: on the three-record example the majority conjunct
applies and gives player1 as predicted winner. -/
theorem fallback_synthesizer_majority_vote_witness :
    (fallbackPrediction "w1" "w2"
      [⟨"f1", "c", "player1", 1, ""⟩, ⟨"f2", "c", "player1", 1, ""⟩,
       ⟨"f3", "c", "player2", 1, ""⟩]).predictedWinnerId = "w1" :=
  (fallback_synthesizer_majority_vote "w1" "w2"
    [⟨"f1", "c", "player1", 1, ""⟩, ⟨"f2", "c", "player1", 1, ""⟩,
     ⟨"f3", "c", "player2", 1, ""⟩]).1 (by decide)

/-- Claim C9: whenever the two advantage counts are equal (the empty list
included), the fallback returns player2's id, win probability exactly 0.5
and confidence 0.75; no division or error occurs on this path. -/
theorem fallback_tie_defaults_to_player2 (player1Id player2Id : String)
    (fas : List FactorAnalysis)
    (h : player1Advantages fas = player2Advantages fas) :
    fallbackPrediction player1Id player2Id fas =
      { predictedWinnerId := player2Id, winProbability := 1/2, confidenceLevel := 3/4 } := by
  norm_num [fallbackPrediction, h, jsMax, jsMin, jsAbs]

/-- Witness for C9: tie on the empty record list. -/
theorem fallback_tie_defaults_to_player2_witness :
    fallbackPrediction "w1" "w2" [] =
      { predictedWinnerId := "w2", winProbability := 1/2, confidenceLevel := 3/4 } :=
  fallback_tie_defaults_to_player2 "w1" "w2" [] rfl

/-- Claim C4 counterexample: on the empty factor list the fallback path is
fully defined — both advantage counts are 0 and it returns player2's id,
probability 0.5 and confidence 0.75.  The claimed division by zero on an
advantage-count ratio cannot occur: the translated fallback contains no
division by a count at all, so the predicted winner is not left undefined. -/
theorem fallback_empty_list_counterexample :
    fallbackPrediction "player-one" "player-two" [] =
      { predictedWinnerId := "player-two", winProbability := 1/2,
        confidenceLevel := 3/4 } := by
  norm_num [fallbackPrediction, player1Advantages, player2Advantages, jsMax, jsMin, jsAbs]

/-- Claim C4 (amended): when the factor-record list is empty the fallback
synthesizer performs no division and is well defined — it implicitly
defaults to player2's id with win probability 0.5 and confidence 0.75
(rather than an explicit 50/50-with-zero-confidence rule). -/
theorem fallback_empty_list_defined (player1Id player2Id : String) :
    fallbackPrediction player1Id player2Id [] =
      { predictedWinnerId := player2Id, winProbability := 1/2,
        confidenceLevel := 3/4 } := by
  norm_num [fallbackPrediction, player1Advantages, player2Advantages, jsMax, jsMin, jsAbs]

/-- There is no transition of the in-flight state that duplicates an id. -/
lemma orchStep_nodup (s : List String) (e : OrchEvent) (h : s.Nodup) :
    (orchStep s e).Nodup := by
  cases e with
  | start id =>
    by_cases hm : id ∈ s
    · simpa [orchStep, startAnalysis, hm] using h
    · simpa [orchStep, startAnalysis, hm] using List.nodup_cons.mpr ⟨hm, h⟩
  | finish id => simpa [orchStep, finishAnalysis] using h.erase id

/-- The in-flight state stays duplicate-free along any event sequence. -/
lemma foldl_orchStep_nodup (events : List OrchEvent) :
    ∀ s : List String, s.Nodup → (events.foldl orchStep s).Nodup := by
  induction events with
  | nil => intro s h; simpa using h
  | cons e es ih => intro s h; exact ih _ (orchStep_nodup s e h)

/-- Claim C2: a second concurrent `analyzeMatch` call for a match id already
in flight fails immediately with the analysis-already-in-progress error
(neither queuing nor joining the run), and along every event sequence from
process start the in-flight state never holds two runs for the same id. -/
theorem analyze_match_concurrency_guard :
    (∀ (inFlight : List String) (matchId : String), matchId ∈ inFlight →
        startAnalysis inFlight matchId =
          Except.error "Match analysis already in progress") ∧
    (∀ events : List OrchEvent, (orchRun events).Nodup) := by
  constructor
  · intro s id h
    simp [startAnalysis, h]
  · intro events
    exact foldl_orchStep_nodup events [] (by simp)

/-- Witness for C2: with a run for match-7 in flight, a second start for
match-7 is rejected with the in-progress error. -/
theorem analyze_match_concurrency_guard_witness :
    startAnalysis ["match-7"] "match-7" =
      Except.error "Match analysis already in progress" :=
  analyze_match_concurrency_guard.1 ["match-7"] "match-7" (by decide)

/-- No status write performed for a task event yields idle. -/
lemma statusAfter_ne_idle (e : AgentEntry) (ev : TaskEvent) :
    (statusAfter e ev).status ≠ AgentState.idle := by
  cases ev <;> simp [statusAfter, updateAgentStatus]

/-- After any nonempty sequence of task events an entry is not idle. -/
lemma statusTrace_ne_idle (events : List TaskEvent) :
    ∀ e : AgentEntry, events ≠ [] →
      (statusTrace e events).status ≠ AgentState.idle := by
  induction events with
  | nil => intro e h; exact absurd rfl h
  | cons ev rest ih =>
    intro e _
    cases rest with
    | nil => simpa [statusTrace] using statusAfter_ne_idle e ev
    | cons ev2 rest2 => exact ih (statusAfter e ev) (by simp)

/-- Claim C8: the AgentStatus registry is a per-task state machine over
idle/processing/active/error — starting a task writes processing, success
writes active, failure writes error, from any prior state; every entry's
status is one of the four states, and an entry is idle only before its
first event (no event sequence ever writes idle back). -/
theorem agent_status_state_machine :
    (∀ e : AgentEntry, (statusAfter e TaskEvent.started).status = AgentState.processing) ∧
    (∀ e : AgentEntry, (statusAfter e TaskEvent.succeeded).status = AgentState.active) ∧
    (∀ e : AgentEntry, (statusAfter e TaskEvent.failed).status = AgentState.error) ∧
    (∀ e : AgentEntry, e.status = AgentState.idle ∨ e.status = AgentState.processing ∨
        e.status = AgentState.active ∨ e.status = AgentState.error) ∧
    (∀ (e : AgentEntry) (events : List TaskEvent), events ≠ [] →
        (statusTrace e events).status ≠ AgentState.idle) := by
  refine ⟨fun e => rfl, fun e => rfl, fun e => rfl, fun e => ?_, ?_⟩
  · cases h : e.status <;> simp
  · intro e events h
    exact statusTrace_ne_idle events e h

/-- Witness for C8: a started-then-succeeded entry is active, hence not
idle. -/
theorem agent_status_state_machine_witness :
    (statusTrace ⟨"Momentum Analyst", "recent_performance", AgentState.idle, 0⟩
      [TaskEvent.started, TaskEvent.succeeded]).status ≠ AgentState.idle :=
  agent_status_state_machine.2.2.2.2
    ⟨"Momentum Analyst", "recent_performance", AgentState.idle, 0⟩
    [TaskEvent.started, TaskEvent.succeeded] (by decide)

/-- Claim C7: a prediction stored through the storage accessor into a table
with no prior row for its match id is returned by `getPredictionByMatch` as
the stored row — same predicted winner id, same win probability, and a
factor-analysis list of the same length. -/
theorem prediction_roundtrip (t : PredictionsTable) (p : InsertPrediction)
    (h : ∀ r ∈ t.rows, r.matchId ≠ p.matchId) :
    getPredictionByMatch (createPrediction t p).2 p.matchId =
      some (createPrediction t p).1 ∧
    (createPrediction t p).1.predictedWinnerId = p.predictedWinnerId ∧
    (createPrediction t p).1.winProbability = p.winProbability ∧
    (createPrediction t p).1.factorAnalysis.length = p.factorAnalysis.length := by
  refine ⟨?_, rfl, rfl, rfl⟩
  have h1 : t.rows.filter (fun r => r.matchId == p.matchId) = [] := by
    rw [List.filter_eq_nil_iff]
    intro r hr
    simpa using h r hr
  simp [getPredictionByMatch, createPrediction, List.filter_append, h1]

/-- Witness for C7: round-trip through an empty table. -/
theorem prediction_roundtrip_witness :
    getPredictionByMatch
      (createPrediction ⟨[], 0⟩ ⟨"m1", "w1", 3/5, 4/5, [], "reason"⟩).2 "m1" =
      some (createPrediction ⟨[], 0⟩ ⟨"m1", "w1", 3/5, 4/5, [], "reason"⟩).1 ∧
    (createPrediction ⟨[], 0⟩ ⟨"m1", "w1", 3/5, 4/5, [], "reason"⟩).1.predictedWinnerId = "w1" ∧
    (createPrediction ⟨[], 0⟩ ⟨"m1", "w1", 3/5, 4/5, [], "reason"⟩).1.winProbability = 3/5 ∧
    (createPrediction ⟨[], 0⟩ ⟨"m1", "w1", 3/5, 4/5, [], "reason"⟩).1.factorAnalysis.length =
      ([] : List FactorAnalysis).length :=
  prediction_roundtrip ⟨[], 0⟩ ⟨"m1", "w1", 3/5, 4/5, [], "reason"⟩ (by simp)

/-- Claim C10: the compile loop of `synthesizePrediction` drops every row
whose conclusion is absent or empty, replaces a falsy (zero) confidence with
0.5 in every kept record, and therefore a task error record with conclusion
Analysis Error and confidence 0.0 appears in the final factor list with
confidence 0.5, not 0.0. -/
theorem compile_drops_and_defaults (category : String) (r : RawAgentRecord) :
    ((r.conclusion = none ∨ r.conclusion = some "") →
        compileFactorAnalyses [(category, [some r])] = []) ∧
    (∀ s : String, r.conclusion = some s → s ≠ "" → r.confidence = some 0 →
        (compileFactorAnalyses [(category, [some r])]).map FactorAnalysis.confidence
          = [1/2]) ∧
    (∀ (e : String) (stats1 stats2 : ServeStats),
        compileFactorAnalyses
          [("statistical",
            [some (AgentRecord.toRaw (analyzeServePerformance stats1 stats2 (Except.error e)))])]
          = [{ factor := "Factor 3.1 (Serve Performance)", conclusion := "Analysis Error",
               advantage := "none", confidence := 1/2,
               reasoning := "Unable to analyze serve performance due to data limitations." }]) := by
  refine ⟨?_, ?_, ?_⟩
  · intro h
    rcases h with h | h <;>
      simp [compileFactorAnalyses, compileOne, strTruthy, h]
  · intro s hs hne hconf
    simp [compileFactorAnalyses, compileOne, strTruthy, hs, hne, jsOrNum, hconf]
  · intro e stats1 stats2
    rfl

/-- Witness for C10: a raw row with conclusion Analysis Error and zero
confidence is kept and its confidence becomes 0.5. -/
theorem compile_drops_and_defaults_witness :
    (compileFactorAnalyses
        [("cat", [some ⟨some "f", some "Analysis Error", some "none", some 0, some "r"⟩])]).map
      FactorAnalysis.confidence = [1/2] :=
  (compile_drops_and_defaults "cat"
      ⟨some "f", some "Analysis Error", some "none", some 0, some "r"⟩).2.1
    "Analysis Error" rfl (by decide) rfl

/-- Claim C3 counterexample: on a forced completion-client failure the
Injury and Fitness Status Monitor task returns its error record with
advantage none but confidence 0.5 — not the claimed 0.0. -/
theorem task_error_confidence_counterexample :
    (analyzeInjuryFitnessStatus ⟨[], 0⟩ ⟨[], 0⟩
        (Except.error "forced failure")).advantage = "none" ∧
    (analyzeInjuryFitnessStatus ⟨[], 0⟩ ⟨[], 0⟩
        (Except.error "forced failure")).confidence = 1/2 ∧
    (analyzeInjuryFitnessStatus ⟨[], 0⟩ ⟨[], 0⟩
        (Except.error "forced failure")).confidence ≠ 0 := by
  refine ⟨rfl, rfl, ?_⟩
  norm_num [analyzeInjuryFitnessStatus]

/-- Claim C3 (amended): every modelled task function is total — it returns a
record for every behavior of the completion client — and on a forced
completion-client failure the record always has advantage none; the error
confidence is 0.0 for the Service Performance and Head-to-Head tasks (and
the other tasks whose catch writes 0.0) but 0.5 for the Environment Analyst
and the Injury and Fitness Status Monitor. -/
theorem task_error_records (e : String) :
    (∀ stats1 stats2 : ServeStats,
        (analyzeServePerformance stats1 stats2 (Except.error e)).advantage = "none" ∧
        (analyzeServePerformance stats1 stats2 (Except.error e)).confidence = 0) ∧
    (∀ (matchSurface player1Id player2Id : String) (ms : List H2HMatch),
        (analyzeHeadToHead matchSurface player1Id player2Id ms
            (Except.error e)).advantage = "none" ∧
        (analyzeHeadToHead matchSurface player1Id player2Id ms
            (Except.error e)).confidence = 0) ∧
    (∀ w : Weather,
        (analyzeEnvironment w (Except.error e)).advantage = "none" ∧
        (analyzeEnvironment w (Except.error e)).confidence = 1/2) ∧
    (∀ status1 status2 : FitnessStatus,
        (analyzeInjuryFitnessStatus status1 status2 (Except.error e)).advantage = "none" ∧
        (analyzeInjuryFitnessStatus status1 status2 (Except.error e)).confidence = 1/2) :=
  ⟨fun _ _ => ⟨rfl, rfl⟩, fun _ _ _ _ => ⟨rfl, rfl⟩, fun _ => ⟨rfl, rfl⟩,
   fun _ _ => ⟨rfl, rfl⟩⟩

/-- Claim C5 (amended): the match-up group runs its three tasks in a fixed
sequence — each started only after the previous one settles — but the
orchestrator does not feed the earlier outputs into later tasks: it invokes
the Tactical Battle Synthesizer with only (match, player1, player2), so the
styleAnalysis and h2hAnalysis parameters are undefined and the tactical
payload's styleContext and h2hContext are none. -/
theorem matchup_sequential_no_output_passing
    (style1 style2 : StyleProfile) (matchSurface player1Id player2Id : String)
    (h2hMatches : List H2HMatch) (aiStyle aiH2H aiTactical : Except String String) :
    (runMatchupGroup style1 style2 matchSurface player1Id player2Id h2hMatches
        aiStyle aiH2H aiTactical).2 =
      [TraceEvent.started "Playing Style Profiler",
       TraceEvent.finished "Playing Style Profiler",
       TraceEvent.started "Head-to-Head Analyst",
       TraceEvent.finished "Head-to-Head Analyst",
       TraceEvent.started "Tactical Battle Synthesizer",
       TraceEvent.finished "Tactical Battle Synthesizer"] ∧
    (∀ r3, ((runMatchupGroup style1 style2 matchSurface player1Id player2Id h2hMatches
          aiStyle aiH2H aiTactical).1)[2]? = some r3 →
        r3.styleContext = none ∧ r3.h2hContext = none) := by
  refine ⟨rfl, ?_⟩
  intro r3 h
  have h3 : r3 = analyzeTacticalBattle none none aiTactical := by
    simpa [runMatchupGroup] using h.symm
  subst h3
  cases aiTactical <;>
    simp [analyzeTacticalBattle, MatchupResult.styleContext, MatchupResult.h2hContext]

/-- Witness for C5: the tactical record produced inside the group run
carries no style or head-to-head context. -/
theorem matchup_sequential_no_output_passing_witness :
    (MatchupResult.mk "Tactical Battle Synthesizer"
        "Factor 5.3 (Projected Tactical Battle)" "Analysis Error" "none" 0
        "Unable to synthesize tactical battle due to data limitations."
        none none).styleContext = none ∧
    (MatchupResult.mk "Tactical Battle Synthesizer"
        "Factor 5.3 (Projected Tactical Battle)" "Analysis Error" "none" 0
        "Unable to synthesize tactical battle due to data limitations."
        none none).h2hContext = none :=
  (matchup_sequential_no_output_passing ⟨0⟩ ⟨0⟩ "clay" "a" "b" []
      (Except.error "x") (Except.error "x") (Except.error "x")).2 _ rfl

/-- Claim C5 counterexample: in a concrete group run where the Playing Style
Profiler produces a real record, the Tactical Battle Synthesizer's received
styleContext is none — the style-analysis result was not passed to it. -/
theorem matchup_outputs_not_consumed_counterexample :
    (((runMatchupGroup ⟨0⟩ ⟨0⟩ "clay" "a" "b" []
          (Except.ok "**Advantage Player 1**") (Except.ok "**Advantage Player 2**")
          (Except.ok "**Advantage Player 1**")).1)[2]?).map MatchupResult.styleContext
        = some none ∧
    ((runMatchupGroup ⟨0⟩ ⟨0⟩ "clay" "a" "b" []
          (Except.ok "**Advantage Player 1**") (Except.ok "**Advantage Player 2**")
          (Except.ok "**Advantage Player 1**")).1)[0]? ≠ none := by
  constructor
  · rfl
  · intro h
    exact Option.noConfusion h

/-- String concatenation acts as list concatenation on the character data. -/
lemma string_data_append (a b : String) : (a ++ b).data = a.data ++ b.data := rfl

/-- ASCII lowering fixes the ASCII digits. -/
lemma asciiLower_of_jsDigit (d : Char) (h : jsDigit d = true) : asciiLower d = d := by
  simp only [jsDigit, Bool.and_eq_true, decide_eq_true_eq] at h
  unfold asciiLower
  rw [if_neg]
  omega

/-- ASCII lowering fixes the asterisk. -/
lemma asciiLower_star : asciiLower '*' = '*' := by decide

/-- A tagged regex alternative cannot match at a position whose lowered
character is not an asterisk. -/
lemma matchTagAt_cons_none (pat : List Char) (c : Char) (l : List Char)
    (hpat : pat.head? = some '*') (hc : asciiLower c ≠ '*') :
    matchTagAt pat (c :: l) = none := by
  cases pat with
  | nil => simp at hpat
  | cons p0 ps =>
    have hp0 : p0 = '*' := by simpa using hpat
    subst hp0
    have hneg : lowerList ((c :: l).take ('*' :: ps).length) ≠ '*' :: ps := by
      rw [List.length_cons, List.take_succ_cons, lowerList, List.map_cons]
      intro h
      injection h with h1 _
      exact hc h1
    unfold matchTagAt
    rw [if_neg hneg]

/-- The literal regex alternative cannot match at a position whose lowered
character is not an asterisk. -/
lemma matchLitAt_cons_none (pat : List Char) (c : Char) (l : List Char)
    (hpat : pat.head? = some '*') (hc : asciiLower c ≠ '*') :
    matchLitAt pat (c :: l) = none := by
  cases pat with
  | nil => simp at hpat
  | cons p0 ps =>
    have hp0 : p0 = '*' := by simpa using hpat
    subst hp0
    have hneg : lowerList ((c :: l).take ('*' :: ps).length) ≠ '*' :: ps := by
      rw [List.length_cons, List.take_succ_cons, lowerList, List.map_cons]
      intro h
      injection h with h1 _
      exact hc h1
    unfold matchLitAt
    rw [if_neg hneg]

/-- No alternative of the advantage regex matches at a position whose
lowered character is not an asterisk. -/
lemma matchAdvAt_cons_none (c : Char) (l : List Char) (hc : asciiLower c ≠ '*') :
    matchAdvAt (c :: l) = none := by
  have h1 := matchTagAt_cons_none advPat c l (by decide) hc
  have h2 := matchTagAt_cons_none slightAdvPat c l (by decide) hc
  have h3 := matchLitAt_cons_none noClearPat c l (by decide) hc
  simp [matchAdvAt, h1, h2, h3]

/-- The leftmost regex match skips any prefix whose lowered characters are
not asterisks. -/
lemma firstAdvMatch_append (pre r : List Char)
    (hpre : ∀ c ∈ pre, asciiLower c ≠ '*') :
    firstAdvMatch (pre ++ r) = firstAdvMatch r := by
  induction pre with
  | nil => rfl
  | cons c cs ih =>
    have hc : asciiLower c ≠ '*' := hpre c (List.mem_cons_self c cs)
    have hcs : ∀ x ∈ cs, asciiLower x ≠ '*' :=
      fun x hx => hpre x (List.mem_cons_of_mem c hx)
    have hstep : firstAdvMatch ((c :: cs) ++ r) = firstAdvMatch (cs ++ r) := by
      show firstMatchBy matchAdvAt (c :: (cs ++ r)) = firstMatchBy matchAdvAt (cs ++ r)
      rw [firstMatchBy, matchAdvAt_cons_none c (cs ++ r) hc]
    rw [hstep]
    exact ih hcs

/-- A match at the head position is the leftmost match. -/
lemma firstAdvMatch_cons_some (c : Char) (l : List Char) (m : AdvMatch)
    (h : matchAdvAt (c :: l) = some m) : firstAdvMatch (c :: l) = some m := by
  show firstMatchBy matchAdvAt (c :: l) = some m
  rw [firstMatchBy, h]

/-- Every digit character produced by digitChar is a regex digit. -/
lemma jsDigit_digitChar : ∀ k : Fin 10, jsDigit (digitChar (k : ℕ)) = true := by decide

/-- The full-advantage marker matches the first regex alternative at its own
position, for any following text. -/
lemma matchAdvAt_advMarker (n : ℕ) (hn : n < 10) (post : List Char) :
    matchAdvAt (advMarkerL n ++ post) =
      some (AdvMatch.tagged (digitChar n) (advMarkerL n)) := by
  have hd : jsDigit (digitChar n) = true := jsDigit_digitChar ⟨n, hn⟩
  have hcond : lowerList ((advMarkerL n ++ post).take advPat.length) = advPat := by
    rw [show advPat.length = 19 from rfl, advMarkerL, List.append_assoc,
      List.take_left' (show ("**Advantage Player ".data).length = 19 from rfl)]
    decide
  have hdrop : (advMarkerL n ++ post).drop advPat.length =
      digitChar n :: '*' :: '*' :: post := by
    rw [show advPat.length = 19 from rfl, advMarkerL, List.append_assoc,
      List.drop_left' (show ("**Advantage Player ".data).length = 19 from rfl)]
    rfl
  have h1 : matchTagAt advPat (advMarkerL n ++ post) =
      some (digitChar n, advMarkerL n) := by
    unfold matchTagAt
    rw [if_pos hcond, hdrop]
    simp only [hd, beq_self_eq_true, Bool.and_true, Bool.and_self, if_pos]
    rw [List.take_left' (show (advMarkerL n).length = advPat.length + 3 from rfl)]
  unfold matchAdvAt
  rw [h1]

/-- The slight-advantage marker matches the second regex alternative at its
own position, for any following text. -/
lemma matchAdvAt_slightMarker (n : ℕ) (hn : n < 10) (post : List Char) :
    matchAdvAt (slightMarkerL n ++ post) =
      some (AdvMatch.tagged (digitChar n) (slightMarkerL n)) := by
  have hd : jsDigit (digitChar n) = true := jsDigit_digitChar ⟨n, hn⟩
  have hfail : ¬ (lowerList ((slightMarkerL n ++ post).take advPat.length) = advPat) := by
    rw [show advPat.length = 19 from rfl, slightMarkerL, List.append_assoc,
      List.take_append_of_le_length (by decide)]
    decide
  have h0 : matchTagAt advPat (slightMarkerL n ++ post) = none := by
    unfold matchTagAt
    rw [if_neg hfail]
  have hcond : lowerList ((slightMarkerL n ++ post).take slightAdvPat.length) =
      slightAdvPat := by
    rw [show slightAdvPat.length = 26 from rfl, slightMarkerL, List.append_assoc,
      List.take_left' (show ("**Slight Advantage Player ".data).length = 26 from rfl)]
    decide
  have hdrop : (slightMarkerL n ++ post).drop slightAdvPat.length =
      digitChar n :: '*' :: '*' :: post := by
    rw [show slightAdvPat.length = 26 from rfl, slightMarkerL, List.append_assoc,
      List.drop_left' (show ("**Slight Advantage Player ".data).length = 26 from rfl)]
    rfl
  have h1 : matchTagAt slightAdvPat (slightMarkerL n ++ post) =
      some (digitChar n, slightMarkerL n) := by
    unfold matchTagAt
    rw [if_pos hcond, hdrop]
    simp only [hd, beq_self_eq_true, Bool.and_true, Bool.and_self, if_pos]
    rw [List.take_left' (show (slightMarkerL n).length = slightAdvPat.length + 3 from rfl)]
  unfold matchAdvAt
  rw [h0, h1]

/-- The no-clear-advantage marker matches the literal regex alternative at
its own position, for any following text. -/
lemma matchAdvAt_noClearMarker (post : List Char) :
    matchAdvAt (noClearMarkerL ++ post) = some (AdvMatch.lit noClearMarkerL) := by
  have hfail1 : ¬ (lowerList ((noClearMarkerL ++ post).take advPat.length) = advPat) := by
    rw [show advPat.length = 19 from rfl, noClearMarkerL,
      List.take_append_of_le_length (by decide)]
    decide
  have h0 : matchTagAt advPat (noClearMarkerL ++ post) = none := by
    unfold matchTagAt
    rw [if_neg hfail1]
  have hfail2 : ¬ (lowerList ((noClearMarkerL ++ post).take slightAdvPat.length) =
      slightAdvPat) := by
    intro h
    have h3 := congrArg (List.take 3) h
    rw [lowerList, ← List.map_take, List.take_take,
      show min 3 slightAdvPat.length = 3 from by decide,
      List.take_append_of_le_length (show 3 ≤ noClearMarkerL.length from by decide)] at h3
    exact absurd h3 (by decide)
  have h1 : matchTagAt slightAdvPat (noClearMarkerL ++ post) = none := by
    unfold matchTagAt
    rw [if_neg hfail2]
  have htake : (noClearMarkerL ++ post).take noClearPat.length = noClearMarkerL :=
    List.take_left' (show noClearMarkerL.length = noClearPat.length from rfl)
  have h2 : matchLitAt noClearPat (noClearMarkerL ++ post) = some noClearMarkerL := by
    unfold matchLitAt
    rw [if_pos (by rw [htake]; decide), htake]
  unfold matchAdvAt
  rw [h0, h1, h2]
  rfl

/-- A leftmost match arises from a positional match at some position. -/
lemma firstMatchBy_some (f : List Char → Option AdvMatch) (l : List Char) (m : AdvMatch)
    (h : firstMatchBy f l = some m) : ∃ i, i < l.length ∧ f (l.drop i) = some m := by
  induction l with
  | nil => simp [firstMatchBy] at h
  | cons c rest ih =>
    rw [firstMatchBy] at h
    cases hf : f (c :: rest) with
    | some m2 =>
      rw [hf] at h
      have h2 : some m2 = some m := h
      refine ⟨0, by simp, ?_⟩
      rw [List.drop_zero, hf]
      exact h2
    | none =>
      rw [hf] at h
      have h2 : firstMatchBy f rest = some m := h
      obtain ⟨i, hi, hfi⟩ := ih h2
      exact ⟨i + 1, by simpa using hi, hfi⟩

/-- A successful tagged alternative exhibits its lowered pattern, a digit
and two asterisks as a prefix of the lowered text. -/
lemma matchTagAt_some (pat l : List Char) (d : Char) (t : List Char)
    (h : matchTagAt pat l = some (d, t)) :
    jsDigit d = true ∧
      (pat ++ ([d] ++ ['*', '*'])).isPrefixOf (lowerList l) = true := by
  unfold matchTagAt at h
  by_cases hcond : lowerList (l.take pat.length) = pat
  case neg => rw [if_neg hcond] at h; exact absurd h (by simp)
  case pos =>
    rw [if_pos hcond] at h
    cases hdrop : l.drop pat.length with
    | nil => rw [hdrop] at h; exact absurd h (by simp)
    | cons d2 rest1 =>
      cases rest1 with
      | nil => rw [hdrop] at h; exact absurd h (by simp)
      | cons c1 rest2 =>
        cases rest2 with
        | nil => rw [hdrop] at h; exact absurd h (by simp)
        | cons c2 rest =>
          rw [hdrop] at h
          have h4 : (if (jsDigit d2 && (c1 == '*') && (c2 == '*')) = true
              then some (d2, l.take (pat.length + 3)) else none) = some (d, t) := h
          by_cases hok : (jsDigit d2 && (c1 == '*') && (c2 == '*')) = true
          case neg => rw [if_neg hok] at h4; exact absurd h4 (by simp)
          case pos =>
            rw [if_pos hok] at h4
            simp only [Option.some.injEq, Prod.mk.injEq] at h4
            obtain ⟨hd2, _⟩ := h4
            simp only [Bool.and_eq_true, beq_iff_eq] at hok
            obtain ⟨⟨hdig, hc1⟩, hc2⟩ := hok
            subst hd2; subst hc1; subst hc2
            refine ⟨hdig, ?_⟩
            rw [List.isPrefixOf_iff_prefix]
            have hall : lowerList l = pat ++ (d2 :: '*' :: '*' :: lowerList rest) := by
              conv_lhs => rw [← List.take_append_drop pat.length l]
              rw [lowerList, List.map_append, hdrop]
              rw [show (l.take pat.length).map asciiLower = pat from hcond]
              simp [asciiLower_of_jsDigit d2 hdig, asciiLower_star, lowerList]
            rw [hall]
            exact ⟨lowerList rest, by simp⟩

/-- A successful literal alternative exhibits its pattern as a prefix of the
lowered text. -/
lemma matchLitAt_some (pat l t : List Char) (h : matchLitAt pat l = some t) :
    pat.isPrefixOf (lowerList l) = true := by
  unfold matchLitAt at h
  by_cases hcond : lowerList (l.take pat.length) = pat
  case neg => rw [if_neg hcond] at h; exact absurd h (by simp)
  case pos =>
    rw [List.isPrefixOf_iff_prefix]
    have hall : lowerList l = pat ++ lowerList (l.drop pat.length) := by
      conv_lhs => rw [← List.take_append_drop pat.length l]
      rw [lowerList, List.map_append]
      rw [show (l.take pat.length).map asciiLower = pat from hcond]
      rfl
    rw [hall]
    exact ⟨lowerList (l.drop pat.length), rfl⟩

/-- Any positional match of the advantage regex exhibits one of the three
lowered markers as a prefix of the lowered text. -/
lemma matchAdvAt_some_marker (l : List Char) (m : AdvMatch)
    (h : matchAdvAt l = some m) :
    (∃ d, jsDigit d = true ∧
        ((advPat ++ ([d] ++ ['*', '*'])).isPrefixOf (lowerList l) = true ∨
         (slightAdvPat ++ ([d] ++ ['*', '*'])).isPrefixOf (lowerList l) = true)) ∨
      noClearPat.isPrefixOf (lowerList l) = true := by
  unfold matchAdvAt at h
  cases h1 : matchTagAt advPat l with
  | some dt =>
    obtain ⟨d, t⟩ := dt
    have := matchTagAt_some advPat l d t h1
    exact Or.inl ⟨d, this.1, Or.inl this.2⟩
  | none =>
    rw [h1] at h
    cases h2 : matchTagAt slightAdvPat l with
    | some dt =>
      obtain ⟨d, t⟩ := dt
      have := matchTagAt_some slightAdvPat l d t h2
      exact Or.inl ⟨d, this.1, Or.inr this.2⟩
    | none =>
      rw [h2] at h
      cases h3 : matchLitAt noClearPat l with
      | none => rw [h3] at h; exact absurd h (by simp)
      | some t => exact Or.inr (matchLitAt_some noClearPat l t h3)

/-- A regex digit is digitChar of a number below ten. -/
lemma digitChar_round (d : Char) (h : jsDigit d = true) :
    d.toNat - 48 < 10 ∧ digitChar (d.toNat - 48) = d := by
  simp only [jsDigit, Bool.and_eq_true, decide_eq_true_eq] at h
  refine ⟨by omega, ?_⟩
  unfold digitChar
  rw [show 48 + (d.toNat - 48) = d.toNat from by omega, Char.ofNat_toNat]

/-- A prefix of a dropped suffix witnesses substring containment. -/
lemma containsSub_of_drop (needle hay : List Char) (i : ℕ) (hi : i ≤ hay.length)
    (h : needle.isPrefixOf (hay.drop i) = true) : containsSub needle hay = true := by
  unfold containsSub
  rw [List.any_eq_true]
  exact ⟨i, List.mem_range.mpr (by omega), h⟩

/-- If the leftmost regex match succeeds on a reply, the reply contains one
of the three markers case-insensitively. -/
lemma hasAnyMarkerCI_of_match (s : String) (m : AdvMatch)
    (h : firstAdvMatch s.data = some m) : hasAnyMarkerCI s = true := by
  obtain ⟨i, hi, hm⟩ := firstMatchBy_some matchAdvAt s.data m h
  have hdrop : lowerList (s.data.drop i) = (lowerList s.data).drop i := by
    simp [lowerList, List.map_drop]
  have hlen : i ≤ (lowerList s.data).length := by
    simpa [lowerList] using Nat.le_of_lt hi
  unfold hasAnyMarkerCI
  rw [Bool.or_eq_true]
  rcases matchAdvAt_some_marker _ _ hm with ⟨d, hd, hpre | hpre⟩ | hpre
  · left
    rw [List.any_eq_true]
    obtain ⟨hd10, hdc⟩ := digitChar_round d hd
    refine ⟨d.toNat - 48, List.mem_range.mpr hd10, ?_⟩
    rw [Bool.or_eq_true]
    left
    rw [hdc]
    exact containsSub_of_drop _ _ i hlen (by rw [← hdrop]; exact hpre)
  · left
    rw [List.any_eq_true]
    obtain ⟨hd10, hdc⟩ := digitChar_round d hd
    refine ⟨d.toNat - 48, List.mem_range.mpr hd10, ?_⟩
    rw [Bool.or_eq_true]
    right
    rw [hdc]
    exact containsSub_of_drop _ _ i hlen (by rw [← hdrop]; exact hpre)
  · right
    exact containsSub_of_drop _ _ i hlen (by rw [← hdrop]; exact hpre)

/-- The empty string is a left identity of string concatenation. -/
lemma string_empty_append (s : String) : "" ++ s = s := rfl

/-- A positional match of the advantage regex at the head is the result of
the leftmost search. -/
lemma firstAdvMatch_of_matchAdvAt (l : List Char) (m : AdvMatch)
    (h : matchAdvAt l = some m) : firstAdvMatch l = some m := by
  cases l with
  | nil =>
    rw [show matchAdvAt [] = none from by decide] at h
    exact absurd h (by simp)
  | cons c r => exact firstAdvMatch_cons_some c r m h

/-- The text No Clear does not occur in a full-advantage marker. -/
lemma noclear_not_in_adv : ∀ k : Fin 10,
    containsSub ("No Clear".data) (advMarkerL (k : ℕ)) = false := by decide

/-- The text Slight does not occur in a full-advantage marker. -/
lemma slight_not_in_adv : ∀ k : Fin 10,
    containsSub ("Slight".data) (advMarkerL (k : ℕ)) = false := by decide

/-- The text No Clear does not occur in a slight-advantage marker. -/
lemma noclear_not_in_slight : ∀ k : Fin 10,
    containsSub ("No Clear".data) (slightMarkerL (k : ℕ)) = false := by decide

/-- The text Slight occurs in a slight-advantage marker. -/
lemma slight_in_slight : ∀ k : Fin 10,
    containsSub ("Slight".data) (slightMarkerL (k : ℕ)) = true := by decide

/-- The text No Clear occurs in the no-clear-advantage marker. -/
lemma noclear_in_noclear : containsSub ("No Clear".data) noClearMarkerL = true := by
  decide

/-- Claim C6 counterexample: a reply that contains the exact marker
**Advantage Player 1** but contains the no-clear marker earlier: the
extractor returns the no-clear result, not player1, so the containment
biconditional of the claim fails. -/
theorem extract_advantage_first_marker_counterexample :
    containsSub ("**Advantage Player 1**".data)
      ("**No Clear Advantage** overall, **Advantage Player 1** early".data) = true ∧
    extractAdvantage "**No Clear Advantage** overall, **Advantage Player 1** early" =
      { player := "none", conclusion := "No Clear Advantage" } ∧
    (extractAdvantage
        "**No Clear Advantage** overall, **Advantage Player 1** early").player
      ≠ "player1" := by
  exact ⟨by decide, by decide, by decide⟩

/-- Claim C6 (amended): the extractor resolves the leftmost, case-insensitive
marker occurrence.  When the reply is a marker preceded by asterisk-free text
and followed by anything, the result is the claimed one for that marker
(playerN for **Advantage Player N**, the slight variant for the slight
marker, none for **No Clear Advantage**); and a reply containing none of the
markers, even case-insensitively, defaults to advantage none. -/
theorem extract_advantage_marker_semantics (pre post : String) (n : ℕ) (hn : n < 10)
    (hpre : ∀ c ∈ pre.data, asciiLower c ≠ '*') :
    extractAdvantage (pre ++ advantageMarker n ++ post) =
      { player := "player" ++ String.mk [digitChar n],
        conclusion := "Advantage Player " ++ String.mk [digitChar n] } ∧
    extractAdvantage (pre ++ slightMarker n ++ post) =
      { player := "player" ++ String.mk [digitChar n],
        conclusion := "Slight " ++ "Advantage Player " ++ String.mk [digitChar n] } ∧
    extractAdvantage (pre ++ noClearMarker ++ post) =
      { player := "none", conclusion := "No Clear Advantage" } ∧
    (∀ s : String, hasAnyMarkerCI s = false →
        extractAdvantage s = { player := "none", conclusion := "No Clear Advantage" }) := by
  refine ⟨?_, ?_, ?_, ?_⟩
  · unfold extractAdvantage
    rw [show (pre ++ advantageMarker n ++ post).data
        = pre.data ++ (advMarkerL n ++ post.data) from by
      rw [string_data_append, string_data_append, List.append_assoc]; rfl]
    rw [firstAdvMatch_append _ _ hpre,
      firstAdvMatch_of_matchAdvAt _ _ (matchAdvAt_advMarker n hn post.data)]
    simp [AdvMatch.text, noclear_not_in_adv ⟨n, hn⟩, slight_not_in_adv ⟨n, hn⟩,
      string_empty_append]
  · unfold extractAdvantage
    rw [show (pre ++ slightMarker n ++ post).data
        = pre.data ++ (slightMarkerL n ++ post.data) from by
      rw [string_data_append, string_data_append, List.append_assoc]; rfl]
    rw [firstAdvMatch_append _ _ hpre,
      firstAdvMatch_of_matchAdvAt _ _ (matchAdvAt_slightMarker n hn post.data)]
    simp [AdvMatch.text, noclear_not_in_slight ⟨n, hn⟩, slight_in_slight ⟨n, hn⟩]
  · unfold extractAdvantage
    rw [show (pre ++ noClearMarker ++ post).data
        = pre.data ++ (noClearMarkerL ++ post.data) from by
      rw [string_data_append, string_data_append, List.append_assoc]; rfl]
    rw [firstAdvMatch_append _ _ hpre,
      firstAdvMatch_of_matchAdvAt _ _ (matchAdvAt_noClearMarker post.data)]
    decide
  · intro s hmarker
    unfold extractAdvantage
    cases hfm : firstAdvMatch s.data with
    | none => rfl
    | some m =>
      have := hasAnyMarkerCI_of_match s m hfm
      rw [hmarker] at this
      exact absurd this (by simp)

/-- Witness for C6: digit 2, an asterisk-free preamble and a nonempty tail. -/
theorem extract_advantage_marker_semantics_witness :
    extractAdvantage ("The analysis shows " ++ advantageMarker 2 ++ " overall.") =
      { player := "player" ++ String.mk [digitChar 2],
        conclusion := "Advantage Player " ++ String.mk [digitChar 2] } ∧
    extractAdvantage ("The analysis shows " ++ slightMarker 2 ++ " overall.") =
      { player := "player" ++ String.mk [digitChar 2],
        conclusion := "Slight " ++ "Advantage Player " ++ String.mk [digitChar 2] } ∧
    extractAdvantage ("The analysis shows " ++ noClearMarker ++ " overall.") =
      { player := "none", conclusion := "No Clear Advantage" } ∧
    (∀ s : String, hasAnyMarkerCI s = false →
        extractAdvantage s = { player := "none", conclusion := "No Clear Advantage" }) :=
  extract_advantage_marker_semantics "The analysis shows " " overall." 2
    (by decide) (by decide)

/-- Witness for C3: the Service Performance Analyst error record at concrete
stats and a forced failure. -/
theorem task_error_records_witness :
    (analyzeServePerformance ⟨1/2, 1/2, 1/10⟩ ⟨3/5, 2/5, 1/5⟩
        (Except.error "connection down")).advantage = "none" ∧
    (analyzeServePerformance ⟨1/2, 1/2, 1/10⟩ ⟨3/5, 2/5, 1/5⟩
        (Except.error "connection down")).confidence = 0 :=
  (task_error_records "connection down").1 ⟨1/2, 1/2, 1/10⟩ ⟨3/5, 2/5, 1/5⟩

/-- Witness for C4: the empty-list fallback at concrete player ids. -/
theorem fallback_empty_list_defined_witness :
    fallbackPrediction "id-a" "id-b" [] =
      { predictedWinnerId := "id-b", winProbability := 1/2, confidenceLevel := 3/4 } :=
  fallback_empty_list_defined "id-a" "id-b"
